import Mathlib

/-!
Shallow embedding of the real-time exam-session coordinator of the
New_Practo_backend repository: the persisted exam aggregate and its mutators
(src/db/models of the exam schema), the VideoMonitoringService (warning
cooldowns, suspicious-activity classification, disconnection handling), the
SocketService handlers (sendWarning, disconnect bookkeeping, reconnect) and
the legacy join_room client registry, together with theorems settling the
frozen claims about them.

Machine conventions: timestamps are naturals (milliseconds, as produced by
Date.now), JS Maps become association lists with first-binding lookup, and
the float comparisons of the suspicious-activity classifier are read in exact
rational arithmetic.
-/

namespace PractoBackend

/-- Candidate status values of the persisted exam record. -/
inductive CandidateStatus
  | pending
  | ongoing
  | completed
  | disqualified
  deriving DecidableEq

/-- One disconnection entry of a candidate videoMonitoring subdocument. -/
structure Disconnection where
  startTime : Nat
  endTime : Option Nat
  reason : String
  deriving DecidableEq

/-- The videoMonitoring subdocument of a candidate. -/
structure VideoMonitoring where
  isEnabled : Bool
  warningCount : Nat
  lastWarningTime : Option Nat
  disconnections : List Disconnection
  deriving DecidableEq

/-- One anti-cheating event recorded on a candidate. -/
structure ACEvent where
  eventType : String
  details : Option String
  timestamp : Nat
  deriving DecidableEq

/-- A candidate subdocument of the persisted exam record. -/
structure Candidate where
  user : String
  status : CandidateStatus
  warnings : Nat
  videoMonitoring : VideoMonitoring
  antiCheatingEvents : List ACEvent
  deriving DecidableEq

/-- The exam settings consulted by the warning flow. -/
structure ExamSettings where
  maxWarnings : Option Nat
  autoDisqualifyOnMaxWarnings : Option Bool
  deriving DecidableEq

/-- The persisted exam record, restricted to the fields the session
coordinator reads and writes. -/
structure Exam where
  admin : String
  candidates : List Candidate
  settings : ExamSettings
  deriving DecidableEq

/-- Matching a candidate subdocument against a user id, mirroring the
comparisons of the form c.user.toString() === userId. -/
def matchesUser (userId : String) (c : Candidate) : Bool :=
  c.user == userId

/-- Update the first element satisfying the predicate, mirroring a JS
Array.prototype.find followed by in-place mutation of the found element. -/
def updateFirst (p : α → Bool) (f : α → α) : List α → List α
  | [] => []
  | x :: xs => if p x then f x :: xs else x :: updateFirst p f xs

/-- The recordWarning instance method of the exam schema: find the candidate
by user id and, when present, bump warnings and videoMonitoring.warningCount
and stamp lastWarningTime. -/
def Exam.recordWarning (e : Exam) (userId : String) (now : Nat) : Exam :=
  { e with candidates := updateFirst (matchesUser userId) (fun c =>
      { c with
        warnings := c.warnings + 1
        videoMonitoring := { c.videoMonitoring with
          warningCount := c.videoMonitoring.warningCount + 1
          lastWarningTime := some now } }) e.candidates }

/-- The recordDisconnection instance method of the exam schema: find the
candidate and, when present, push a disconnection entry with the current
time, no end time, and the given reason defaulted. -/
def Exam.recordDisconnection (e : Exam) (userId : String) (reason : Option String)
    (now : Nat) : Exam :=
  { e with candidates := updateFirst (matchesUser userId) (fun c =>
      { c with videoMonitoring := { c.videoMonitoring with
          disconnections := c.videoMonitoring.disconnections ++
            [{ startTime := now, endTime := none,
               reason := reason.getD "Unknown disconnection" }] } }) e.candidates }

/-- Set the end time of the last disconnection entry, if any. -/
def setLastEndTime (now : Nat) : List Disconnection → List Disconnection
  | [] => []
  | [d] => [{ d with endTime := some now }]
  | d :: d2 :: rest => d :: setLastEndTime now (d2 :: rest)

/-- The recordReconnection instance method of the exam schema: find the
candidate and, when present and its disconnection list is non-empty, set the
end time of the most recent disconnection entry. -/
def Exam.recordReconnection (e : Exam) (userId : String) (now : Nat) : Exam :=
  { e with candidates := (updateFirst (matchesUser userId) (fun c =>
      { c with videoMonitoring := { c.videoMonitoring with
          disconnections := setLastEndTime now c.videoMonitoring.disconnections } })
      e.candidates) }

/-- Look up a candidate by user id, mirroring exam.candidates.find. -/
def Exam.findCandidate (e : Exam) (userId : String) : Option Candidate :=
  e.candidates.find? (matchesUser userId)

/-- The persisted warning count of a candidate, when present. -/
def Exam.warningsOf (e : Exam) (userId : String) : Option Nat :=
  (e.findCandidate userId).map Candidate.warnings

/-- The status of a candidate, when present. -/
def Exam.statusOf (e : Exam) (userId : String) : Option CandidateStatus :=
  (e.findCandidate userId).map Candidate.status

/-- The disconnection list of a candidate, when present. -/
def Exam.disconnectionsOf (e : Exam) (userId : String) : Option (List Disconnection) :=
  (e.findCandidate userId).map (fun c => c.videoMonitoring.disconnections)

/-- Replace the first binding of a key in an association list, or append it,
mirroring JS Map.prototype.set. -/
def setAssoc (k : String) (v : α) : List (String × α) → List (String × α)
  | [] => [(k, v)]
  | kv :: rest => if kv.1 == k then (k, v) :: rest else kv :: setAssoc k v rest

/-- Remove every binding of a key from an association list, mirroring JS
Map.prototype.delete on maps whose keys are unique. -/
def eraseAssoc (k : String) (l : List (String × α)) : List (String × α) :=
  l.filter (fun kv => !(kv.1 == k))

/-- The warning cooldown of VIDEO_CONSTANTS, in milliseconds. -/
def WARNING_COOLDOWN : Nat := 60000

/-- The reconnection timeout shared by VIDEO_CONSTANTS and the socket
service, in milliseconds. -/
def RECONNECTION_TIMEOUT : Nat := 30000

/-- The maximum disconnection count of VIDEO_CONSTANTS. -/
def MAX_DISCONNECTIONS : Nat := 3

/-- The maximum reconnection attempt count of the socket service. -/
def MAX_RECONNECTION_ATTEMPTS : Nat := 3

/-- VideoMonitoringService.canIssueWarning: true when the identity has no
cooldown entry or the last warning is at least WARNING_COOLDOWN old. The
cooldown map is keyed by user id only, independent of any exam. -/
def canIssueWarning (cooldowns : List (String × Nat)) (userId : String)
    (now : Nat) : Bool :=
  match cooldowns.lookup userId with
  | none => true
  | some last => decide (WARNING_COOLDOWN ≤ now - last)

/-- The combined state touched by VideoMonitoringService warning issuance:
the persisted exam record, the static per-identity cooldown map, and the
trace of warnings actually issued (each successful issuance is observable as
a recordWarning call plus a log/broadcast carrying the reason). -/
structure MonitorState where
  exam : Exam
  warningCooldowns : List (String × Nat)
  issuedWarnings : List (String × String)
  deriving DecidableEq

/-- VideoMonitoringService.issueWarning: a no-op while the cooldown is
active; otherwise record the warning on the exam, stamp the cooldown map,
and emit the warning with its reason. -/
def issueWarning (st : MonitorState) (userId reason : String) (now : Nat) :
    MonitorState :=
  if canIssueWarning st.warningCooldowns userId now then
    { exam := st.exam.recordWarning userId now,
      warningCooldowns := setAssoc userId now st.warningCooldowns,
      issuedWarnings := st.issuedWarnings ++ [(userId, reason)] }
  else st

/-- VideoMonitoringService.handleDisconnection: when the candidate exists,
record a disconnection, then disqualify when the disconnections within
RECONNECTION_TIMEOUT of now reach MAX_DISCONNECTIONS. -/
def handleDisconnectionVMS (e : Exam) (userId : String) (reason : Option String)
    (now : Nat) : Exam :=
  match e.findCandidate userId with
  | none => e
  | some _ =>
    let e1 := e.recordDisconnection userId reason now
    match e1.findCandidate userId with
    | none => e1
    | some c1 =>
      let recent := c1.videoMonitoring.disconnections.filter
        (fun d => decide (now - d.startTime ≤ RECONNECTION_TIMEOUT))
      if MAX_DISCONNECTIONS ≤ recent.length then
        { e1 with candidates := (updateFirst (matchesUser userId)
            (fun c => { c with status := CandidateStatus.disqualified })
            e1.candidates) }
      else e1

/-- Set the first matching candidate status, mirroring candidate.status
assignment after exam.candidates.find. -/
def Exam.setStatus (e : Exam) (userId : String) (st : CandidateStatus) : Exam :=
  { e with candidates := (updateFirst (matchesUser userId)
      (fun c => { c with status := st }) e.candidates) }

/-- The five-minute window of the anti-cheating event classifier, in
milliseconds. -/
def FIVE_MINUTES : Nat := 300000

/-- Push an anti-cheating event onto the first matching candidate,
mirroring candidate.antiCheatingEvents.push in the exam controller. -/
def Exam.pushAntiCheatingEvent (e : Exam) (userId eventType : String)
    (details : Option String) (now : Nat) : Exam :=
  { e with candidates := (updateFirst (matchesUser userId) (fun c =>
      { c with antiCheatingEvents := c.antiCheatingEvents ++
          [{ eventType := eventType, details := details, timestamp := now }] })
      e.candidates) }

/-- The recordAntiCheatingEvent controller handler, candidate path: append
the event, recount the event types seen in the last five minutes, and fire
one warning attempt per threshold reached (tab switches at three, copy-paste
at two, right clicks at five, dev tools at one). Requests whose user is not
a candidate of the exam are rejected before any mutation. -/
def recordAntiCheatingEvent (st : MonitorState) (userId eventType : String)
    (details : Option String) (now : Nat) : MonitorState :=
  if st.exam.candidates.any (matchesUser userId) then
    let exam1 := st.exam.pushAntiCheatingEvent userId eventType details now
    let st1 : MonitorState := { st with exam := exam1 }
    match exam1.findCandidate userId with
    | none => st1
    | some c =>
      let recent := c.antiCheatingEvents.filter
        (fun ev => decide (now - ev.timestamp < FIVE_MINUTES))
      let tabSwitchCount := (recent.filter (fun ev => ev.eventType == "tab_switch")).length
      let copyPasteCount := (recent.filter (fun ev => ev.eventType == "copy_paste")).length
      let rightClickCount := (recent.filter (fun ev => ev.eventType == "right_click")).length
      let devToolsCount := (recent.filter (fun ev => ev.eventType == "dev_tools")).length
      let st2 := if 3 ≤ tabSwitchCount then
        issueWarning st1 userId "Multiple tab switches detected" now else st1
      let st3 := if 2 ≤ copyPasteCount then
        issueWarning st2 userId "Copy-paste activity detected" now else st2
      let st4 := if 5 ≤ rightClickCount then
        issueWarning st3 userId "Excessive right-click activity" now else st3
      if 1 ≤ devToolsCount then
        issueWarning st4 userId "Developer tools access detected" now else st4
  else st

/-- Feed a sequence of same-typed or mixed anti-cheating events for one
user, oldest first. -/
def feedEvents (st : MonitorState) (userId : String) (details : Option String)
    (evs : List (String × Nat)) : MonitorState :=
  evs.foldl (fun s ev => recordAntiCheatingEvent s userId ev.1 details ev.2) st

/-- One stored frame-analysis result of VideoMonitoringService. -/
structure AnalysisResult where
  hasMultipleFaces : Bool
  hasNoFace : Bool
  hasUnusualMovement : Bool
  confidence : ℚ
  timestamp : Nat
  deriving DecidableEq

/-- The report returned by the suspicious-activity check. -/
structure SuspiciousReport where
  isSuspicious : Bool
  reasons : List String
  confidence : ℚ
  deriving DecidableEq

/-- VideoMonitoringService.checkForSuspiciousActivity over the stored
analysis results of one user: empty input is not suspicious; otherwise each
of the three frame-fraction thresholds contributes its reason and
confidence, the confidences are summed and clamped at one, and the report is
suspicious exactly when some reason was pushed. The JS float thresholds
0.3, 0.5 and 0.4 are read as exact rationals. -/
def checkForSuspiciousActivity (results : List AnalysisResult) : SuspiciousReport :=
  if results.length = 0 then
    { isSuspicious := false, reasons := [], confidence := 0 }
  else
    let total : ℚ := results.length
    let multipleFacesCount : ℚ := (results.filter (fun r => r.hasMultipleFaces)).length
    let noFaceCount : ℚ := (results.filter (fun r => r.hasNoFace)).length
    let unusualMovementCount : ℚ := (results.filter (fun r => r.hasUnusualMovement)).length
    let reasons1 : List String :=
      if total * (3 / 10) < multipleFacesCount then ["Multiple faces detected"] else []
    let conf1 : ℚ := if total * (3 / 10) < multipleFacesCount then 4 / 10 else 0
    let reasons2 : List String :=
      if total * (5 / 10) < noFaceCount then ["No face detected for extended period"] else []
    let conf2 : ℚ := if total * (5 / 10) < noFaceCount then 3 / 10 else 0
    let reasons3 : List String :=
      if total * (4 / 10) < unusualMovementCount then ["Unusual movement patterns detected"] else []
    let conf3 : ℚ := if total * (4 / 10) < unusualMovementCount then 3 / 10 else 0
    let reasons := reasons1 ++ reasons2 ++ reasons3
    { isSuspicious := decide (0 < reasons.length),
      reasons := reasons,
      confidence := min (conf1 + conf2 + conf3) 1 }

/-- The ephemeral per-candidate video state of the socket service. -/
structure VideoState where
  isStreaming : Bool
  lastWarningTime : Option Nat
  warningCount : Nat
  deriving DecidableEq

/-- The outbound notifications a socket handler can emit that matter to the
claims: error messages to the sender and room broadcasts. -/
inductive SockEvent
  | errorMsg (message : String)
  | warningIssued (userId : String)
  | candidateDisqualified (userId : String)
  | userReconnected (userId : String)
  deriving DecidableEq

/-- The socket-service state read and written by handleSendWarning: the
persisted exam record behind Exam.findById (none when the exam id is
unknown) and the videoStates map keyed by user id. -/
structure SockState where
  examDb : Option Exam
  videoStates : List (String × VideoState)
  deriving DecidableEq

/-- The handleSendWarning socket handler: reject non-admin senders with an
error; silently do nothing when the target has no video state; otherwise
bump the ephemeral and persisted warning counters, broadcast the warning,
and when the incremented ephemeral count reaches the configured maxWarnings
(default three) with auto-disqualification enabled (default true) and the
candidate exists on the record, set that candidate status to disqualified
and broadcast the disqualification. -/
def handleSendWarning (st : SockState) (senderId userId : String) (now : Nat) :
    SockState × List SockEvent :=
  match st.examDb with
  | none => (st, [SockEvent.errorMsg "Not authorized to send warnings"])
  | some exam =>
    if exam.admin == senderId then
      match st.videoStates.lookup userId with
      | none => (st, [])
      | some vs =>
        let vs1 := { vs with warningCount := vs.warningCount + 1,
                             lastWarningTime := some now }
        let exam1 := exam.recordWarning userId now
        let maxWarnings := exam1.settings.maxWarnings.getD 3
        let shouldAutoDisqualify := exam1.settings.autoDisqualifyOnMaxWarnings.getD true
        if shouldAutoDisqualify ∧ maxWarnings ≤ vs1.warningCount then
          if (exam1.findCandidate userId).isSome then
            ({ examDb := some (exam1.setStatus userId CandidateStatus.disqualified),
               videoStates := setAssoc userId vs1 st.videoStates },
             [SockEvent.warningIssued userId, SockEvent.candidateDisqualified userId])
          else
            ({ examDb := some exam1, videoStates := setAssoc userId vs1 st.videoStates },
             [SockEvent.warningIssued userId])
        else
          ({ examDb := some exam1, videoStates := setAssoc userId vs1 st.videoStates },
           [SockEvent.warningIssued userId])
    else
      (st, [SockEvent.errorMsg "Not authorized to send warnings"])

/-- One entry of the legacy join_room client registry: the payload user
fields plus the socket id stored for that identity. -/
structure ClientData where
  userId : String
  userType : String
  socketid : String
  deriving DecidableEq

/-- The join_room handler effect on the per-exam client list: when an entry
with the same user id exists its stored socket id is overwritten in place,
otherwise the payload is appended as a new entry. -/
def joinRoom (cs : List ClientData) (userId userType socketid : String) :
    List ClientData :=
  if cs.any (fun v => v.userId == userId) then
    cs.map (fun v => if v.userId == userId then { v with socketid := socketid } else v)
  else
    cs ++ [{ userId := userId, userType := userType, socketid := socketid }]

/-- A sequence of join_room calls against one exam room, starting from the
absent (empty) client list. -/
def joinSeq (ops : List ClientData) : List ClientData :=
  ops.foldl (fun cs op => joinRoom cs op.userId op.userType op.socketid) []

/-- One entry of the reconnectionAttempts map of the socket service. -/
structure ReconInfo where
  attempts : Nat
  lastAttempt : Nat
  examId : String
  deriving DecidableEq

/-- The reconnection bookkeeping of the handleDisconnect socket handler:
nothing happens unless an entry already exists and the reason is the
transport-close classification; a stale entry (older than twice
RECONNECTION_TIMEOUT) has its attempts reset before the increment; an entry
below MAX_RECONNECTION_ATTEMPTS is incremented and restamped; otherwise the
entry is deleted and the permanent-disconnection notification is emitted
(the returned flag). -/
def stepDisconnectTracker (tracker : List (String × ReconInfo))
    (userId reason : String) (now : Nat) :
    List (String × ReconInfo) × Bool :=
  match tracker.lookup userId with
  | none => (tracker, false)
  | some info =>
    if reason == "transport close" then
      let attempts0 :=
        if RECONNECTION_TIMEOUT * 2 < now - info.lastAttempt then 0 else info.attempts
      if attempts0 < MAX_RECONNECTION_ATTEMPTS then
        (setAssoc userId { info with attempts := attempts0 + 1, lastAttempt := now }
          tracker, false)
      else
        (eraseAssoc userId tracker, true)
    else
      (tracker, false)

/-- Append a socket id to a room membership set, mirroring Set.prototype.add. -/
def addToRoom (socketid : String) (room : List String) : List String :=
  if socketid ∈ room then room else room ++ [socketid]

/-- The full outcome of the handleReconnect socket handler. -/
structure ReconnectOutcome where
  tracker : List (String × ReconInfo)
  examDb : Option Exam
  room : List String
  events : List SockEvent
  deriving DecidableEq

/-- The handleReconnect socket handler: reject with an error when no tracker
entry exists for the user or its bound exam id differs from the supplied
one, touching nothing; otherwise delete the entry, and when the exam record
loads, record the reconnection on it, re-add the socket to the room, and
broadcast the successful reconnection. -/
def handleReconnect (tracker : List (String × ReconInfo)) (examDb : Option Exam)
    (room : List String) (userId examId socketid : String) (now : Nat) :
    ReconnectOutcome :=
  match tracker.lookup userId with
  | none => ⟨tracker, examDb, room, [SockEvent.errorMsg "Invalid reconnection attempt"]⟩
  | some info =>
    if info.examId == examId then
      let tracker1 := eraseAssoc userId tracker
      match examDb with
      | none => ⟨tracker1, none, room, [SockEvent.errorMsg "Exam not found"]⟩
      | some exam =>
        ⟨tracker1, some (exam.recordReconnection userId now), addToRoom socketid room,
         [SockEvent.userReconnected userId]⟩
    else
      ⟨tracker, examDb, room, [SockEvent.errorMsg "Invalid reconnection attempt"]⟩

/-- A fresh videoMonitoring subdocument as addCandidate builds it. -/
def freshVideoMonitoring : VideoMonitoring :=
  { isEnabled := true, warningCount := 0, lastWarningTime := none, disconnections := [] }

/-- A fresh candidate as addCandidate builds it. -/
def freshCandidate (u : String) : Candidate :=
  { user := u, status := CandidateStatus.pending, warnings := 0,
    videoMonitoring := freshVideoMonitoring, antiCheatingEvents := [] }

/-- An exam with one fresh candidate and default settings. -/
def singleCandidateExam (u : String) : Exam :=
  { admin := "admin1", candidates := [freshCandidate u], settings := ⟨none, none⟩ }

/-- The concrete exam reached after three warnings against candidate u1
drove an auto-disqualification. -/
def examAfterThreeWarnings : Exam :=
  { admin := "a1",
    candidates := [⟨"u1", CandidateStatus.disqualified, 3, ⟨true, 3, some 2, []⟩, []⟩],
    settings := ⟨none, none⟩ }

/-- The socket-service state matching examAfterThreeWarnings: the ephemeral
video state of u1 also counts three warnings. -/
def sockStateAfterThreeWarnings : SockState :=
  { examDb := some examAfterThreeWarnings,
    videoStates := [("u1", ⟨true, some 2, 3⟩)] }

/-- A socket-service state whose exam has only candidate u1 and whose
videoStates map is empty. -/
def sockStateNoTargetState : SockState :=
  { examDb := some (singleCandidateExam "u1"), videoStates := [] }

/-- A monitor state over a one-candidate exam with no cooldowns and no
issued warnings. -/
def freshMonitorState (u : String) : MonitorState :=
  { exam := singleCandidateExam u, warningCooldowns := [], issuedWarnings := [] }

/-- An exam with two fresh candidates and default settings. -/
def twoCandidateExam : Exam :=
  { admin := "a1", candidates := [freshCandidate "u1", freshCandidate "u2"],
    settings := ⟨none, none⟩ }

/-- A socket-service state in which candidate u1 already carries two
ephemeral warnings. -/
def sockStateTwoWarnings : SockState :=
  { examDb := some (singleCandidateExam "u1"), videoStates := [("u1", ⟨true, none, 2⟩)] }

theorem updateFirst_eq_of_forall_not (p : α → Bool) (f : α → α) :
    ∀ l : List α, (∀ x ∈ l, p x = false) → updateFirst p f l = l
  | [], _ => rfl
  | x :: xs, h => by
    have hx := h x (List.mem_cons_self x xs)
    simp [updateFirst, hx,
      updateFirst_eq_of_forall_not p f xs (fun y hy => h y (List.mem_cons_of_mem x hy))]

theorem updateFirst_append_cons (p : α → Bool) (f : α → α) (c : α) (post : List α) :
    ∀ pre : List α, (∀ a ∈ pre, p a = false) → p c = true →
      updateFirst p f (pre ++ c :: post) = pre ++ f c :: post
  | [], _, hc => by simp [updateFirst, hc]
  | x :: pre, h, hc => by
    have hx := h x (List.mem_cons_self x pre)
    simp [updateFirst, hx,
      updateFirst_append_cons p f c post pre
        (fun y hy => h y (List.mem_cons_of_mem x hy)) hc]

theorem find?_updateFirst (p : α → Bool) (f : α → α)
    (hf : ∀ a, p a = true → p (f a) = true) :
    ∀ l : List α, (updateFirst p f l).find? p = (l.find? p).map f
  | [] => rfl
  | x :: xs => by
    cases hx : p x
    · simp [updateFirst, hx, List.find?_cons, find?_updateFirst p f hf xs]
    · simp [updateFirst, hx, List.find?_cons, hf x hx]

theorem setLastEndTime_append (t : Nat) (d : Disconnection) :
    ∀ l : List Disconnection,
      setLastEndTime t (l ++ [d]) = l ++ [{ d with endTime := some t }]
  | [] => rfl
  | [x] => rfl
  | x :: y :: rest => by
    simpa [setLastEndTime] using setLastEndTime_append t d (y :: rest)

theorem lookup_setAssoc_self (k : String) (v : α) :
    ∀ l : List (String × α), (setAssoc k v l).lookup k = some v
  | [] => by simp [setAssoc, List.lookup]
  | (k1, v1) :: rest => by
    cases h : k1 == k
    · have hne : k1 ≠ k := by simpa using h
      have h2 : (k == k1) = false := by simpa using Ne.symm hne
      simp [setAssoc, h, List.lookup, h2, lookup_setAssoc_self k v rest]
    · simp [setAssoc, h, List.lookup]

theorem lookup_eraseAssoc_self (k : String) :
    ∀ l : List (String × α), (eraseAssoc k l).lookup k = none
  | [] => rfl
  | (k1, v1) :: rest => by
    cases h : k1 == k
    · have hne : k1 ≠ k := by simpa using h
      have h2 : (k == k1) = false := by simpa using Ne.symm hne
      simpa [eraseAssoc, List.filter, h, List.lookup, h2] using
        lookup_eraseAssoc_self k rest
    · simpa [eraseAssoc, List.filter, h] using lookup_eraseAssoc_self k rest

theorem find?_disq_updateFirst (u : String) (p : Candidate → Bool)
    (f : Candidate → Candidate)
    (hu : ∀ a, (f a).user = a.user)
    (hs : ∀ a, (f a).status = a.status ∨ (f a).status = CandidateStatus.disqualified) :
    ∀ l : List Candidate, ∀ c, l.find? (matchesUser u) = some c →
      c.status = CandidateStatus.disqualified →
      ∃ c2, (updateFirst p f l).find? (matchesUser u) = some c2 ∧
        c2.status = CandidateStatus.disqualified
  | [], c, hfind, _ => by simp at hfind
  | x :: xs, c, hfind, hc => by
    cases hm : matchesUser u x
    · rw [List.find?_cons_of_neg _ (by simp [hm])] at hfind
      cases hp : p x
      · obtain ⟨c2, hc2, hst⟩ := find?_disq_updateFirst u p f hu hs xs c hfind hc
        refine ⟨c2, ?_, hst⟩
        simp only [updateFirst, hp, Bool.false_eq_true, if_false]
        rw [List.find?_cons_of_neg _ (by simp [hm])]
        exact hc2
      · refine ⟨c, ?_, hc⟩
        have hm2 : matchesUser u (f x) = false := by
          unfold matchesUser at *
          rw [hu x]
          exact hm
        simp only [updateFirst, hp, if_true]
        rw [List.find?_cons_of_neg _ (by simp [hm2])]
        exact hfind
    · rw [List.find?_cons_of_pos _ hm] at hfind
      obtain rfl : x = c := by simpa using hfind
      cases hp : p x
      · refine ⟨x, ?_, hc⟩
        simp only [updateFirst, hp, Bool.false_eq_true, if_false]
        rw [List.find?_cons_of_pos _ hm]
      · refine ⟨f x, ?_, ?_⟩
        · have hm2 : matchesUser u (f x) = true := by
            unfold matchesUser at *
            rw [hu x]
            exact hm
          simp only [updateFirst, hp, if_true]
          rw [List.find?_cons_of_pos _ hm2]
        · rcases hs x with h1 | h1
          · rw [h1]
            exact hc
          · exact h1

theorem findCandidate_recordWarning (e : Exam) (u : String) (t : Nat) :
    (e.recordWarning u t).findCandidate u =
      (e.findCandidate u).map (fun c =>
        { c with
          warnings := c.warnings + 1
          videoMonitoring := { c.videoMonitoring with
            warningCount := c.videoMonitoring.warningCount + 1
            lastWarningTime := some t } }) := by
  unfold Exam.recordWarning Exam.findCandidate
  apply find?_updateFirst
  intro a ha
  exact ha

theorem findCandidate_recordDisconnection (e : Exam) (u : String) (r : Option String)
    (t : Nat) :
    (e.recordDisconnection u r t).findCandidate u =
      (e.findCandidate u).map (fun c =>
        { c with videoMonitoring := { c.videoMonitoring with
            disconnections := c.videoMonitoring.disconnections ++
              [{ startTime := t, endTime := none,
                 reason := r.getD "Unknown disconnection" }] } }) := by
  unfold Exam.recordDisconnection Exam.findCandidate
  apply find?_updateFirst
  intro a ha
  exact ha

theorem findCandidate_recordReconnection (e : Exam) (u : String) (t : Nat) :
    (e.recordReconnection u t).findCandidate u =
      (e.findCandidate u).map (fun c =>
        { c with videoMonitoring := { c.videoMonitoring with
            disconnections := setLastEndTime t c.videoMonitoring.disconnections } }) := by
  unfold Exam.recordReconnection Exam.findCandidate
  apply find?_updateFirst
  intro a ha
  exact ha

/-- C9: for every exam record and candidate in it, recordDisconnection
followed by recordReconnection for that candidate appends one open
disconnection entry and then closes exactly that entry by setting its end
time, leaving every earlier entry untouched and the list length unchanged
by the reconnection step. -/
theorem recordDisconnection_then_recordReconnection_closes_last
    (e : Exam) (u : String) (r : Option String) (t1 t2 : Nat) (c : Candidate)
    (h : e.findCandidate u = some c) :
    ((e.recordDisconnection u r t1).recordReconnection u t2).disconnectionsOf u =
      some (c.videoMonitoring.disconnections ++
        [{ startTime := t1, endTime := some t2,
           reason := r.getD "Unknown disconnection" }]) ∧
    (((e.recordDisconnection u r t1).recordReconnection u t2).disconnectionsOf u).map
        List.length =
      ((e.recordDisconnection u r t1).disconnectionsOf u).map List.length := by
  have h1 := findCandidate_recordDisconnection e u r t1
  rw [h, Option.map_some'] at h1
  have h2 := findCandidate_recordReconnection (e.recordDisconnection u r t1) u t2
  rw [h1, Option.map_some'] at h2
  unfold Exam.disconnectionsOf
  rw [h2, h1]
  constructor
  · simp only [Option.map_some']
    rw [setLastEndTime_append]
  · simp only [Option.map_some']
    rw [setLastEndTime_append]
    simp

/-- Witness for C9 at a concrete exam. -/
theorem recordDisconnection_then_recordReconnection_closes_last_witness :
    (singleCandidateExam "u1").findCandidate "u1" = some (freshCandidate "u1") ∧
    (((singleCandidateExam "u1").recordDisconnection "u1" (some "network error") 5).recordReconnection
        "u1" 9).disconnectionsOf "u1" =
      some ((freshCandidate "u1").videoMonitoring.disconnections ++
        [{ startTime := 5, endTime := some 9,
           reason := (some "network error").getD "Unknown disconnection" }]) ∧
    ((((singleCandidateExam "u1").recordDisconnection "u1" (some "network error") 5).recordReconnection
        "u1" 9).disconnectionsOf "u1").map List.length =
      (((singleCandidateExam "u1").recordDisconnection "u1" (some "network error") 5).disconnectionsOf
        "u1").map List.length := by
  refine ⟨by decide, ?_, ?_⟩
  · exact (recordDisconnection_then_recordReconnection_closes_last
      (singleCandidateExam "u1") "u1" (some "network error") 5 9
      (freshCandidate "u1") (by decide)).1
  · exact (recordDisconnection_then_recordReconnection_closes_last
      (singleCandidateExam "u1") "u1" (some "network error") 5 9
      (freshCandidate "u1") (by decide)).2

/-- C10: the three exam mutators are total functions that leave the record
entirely unchanged when no candidate matches the user id; and on a match,
recordWarning rewrites exactly the first matching candidate, bumping its
warnings and videoMonitoring.warningCount by one each and stamping its
lastWarningTime, while every other candidate and every other exam field stay
untouched. -/
theorem exam_mutators_frame (e : Exam) (u : String) (r : Option String) (t : Nat) :
    ((∀ c ∈ e.candidates, matchesUser u c = false) →
      e.recordWarning u t = e ∧ e.recordDisconnection u r t = e ∧
        e.recordReconnection u t = e) ∧
    (∀ pre c post, e.candidates = pre ++ c :: post →
      (∀ a ∈ pre, matchesUser u a = false) → matchesUser u c = true →
      (e.recordWarning u t).candidates = pre ++
        { c with
          warnings := c.warnings + 1
          videoMonitoring := { c.videoMonitoring with
            warningCount := c.videoMonitoring.warningCount + 1
            lastWarningTime := some t } } :: post ∧
      (e.recordWarning u t).admin = e.admin ∧
      (e.recordWarning u t).settings = e.settings) := by
  constructor
  · intro hnone
    refine ⟨?_, ?_, ?_⟩
    · unfold Exam.recordWarning
      rw [updateFirst_eq_of_forall_not _ _ _ hnone]
    · unfold Exam.recordDisconnection
      rw [updateFirst_eq_of_forall_not _ _ _ hnone]
    · unfold Exam.recordReconnection
      rw [updateFirst_eq_of_forall_not _ _ _ hnone]
  · intro pre c post hsplit hpre hc
    refine ⟨?_, rfl, rfl⟩
    unfold Exam.recordWarning
    rw [hsplit, updateFirst_append_cons _ _ _ _ _ hpre hc]

/-- Witness for C10 at a two-candidate exam: the mutators ignore the unknown
id zz, and recordWarning for u1 rewrites only the first candidate. -/
theorem exam_mutators_frame_witness :
    (twoCandidateExam.recordWarning "zz" 7 = twoCandidateExam ∧
      twoCandidateExam.recordDisconnection "zz" none 7 = twoCandidateExam ∧
      twoCandidateExam.recordReconnection "zz" 7 = twoCandidateExam) ∧
    (twoCandidateExam.recordWarning "u1" 7).candidates = [] ++
      { freshCandidate "u1" with
        warnings := (freshCandidate "u1").warnings + 1
        videoMonitoring := { (freshCandidate "u1").videoMonitoring with
          warningCount := (freshCandidate "u1").videoMonitoring.warningCount + 1
          lastWarningTime := some 7 } } :: [freshCandidate "u2"] :=
  ⟨(exam_mutators_frame twoCandidateExam "zz" none 7).1 (by decide),
   ((exam_mutators_frame twoCandidateExam "u1" none 7).2 [] (freshCandidate "u1")
      [freshCandidate "u2"] (by decide) (by decide) (by decide)).1⟩

/-- C2: canIssueWarning is true exactly when the global per-identity
cooldown map holds no entry younger than WARNING_COOLDOWN for the identity;
consequently a second issueWarning within the cooldown window is a complete
no-op on the state while the first has persisted exactly one warning
increment for the candidate and emitted exactly one warning. -/
theorem canIssueWarning_iff_and_double_call_single_increment
    (st : MonitorState) (u r1 r2 : String) (t1 t2 : Nat) (c : Candidate)
    (hc : st.exam.findCandidate u = some c)
    (h1 : canIssueWarning st.warningCooldowns u t1 = true)
    (hle : t1 ≤ t2) (hwin : t2 - t1 < WARNING_COOLDOWN) :
    (∀ (cds : List (String × Nat)) (v : String) (now : Nat),
        canIssueWarning cds v now = true ↔
          ∀ last, cds.lookup v = some last → WARNING_COOLDOWN ≤ now - last) ∧
    issueWarning (issueWarning st u r1 t1) u r2 t2 = issueWarning st u r1 t1 ∧
    (issueWarning st u r1 t1).exam.warningsOf u = some (c.warnings + 1) ∧
    (issueWarning st u r1 t1).issuedWarnings = st.issuedWarnings ++ [(u, r1)] := by
  have hstep : issueWarning st u r1 t1 =
      { exam := st.exam.recordWarning u t1,
        warningCooldowns := setAssoc u t1 st.warningCooldowns,
        issuedWarnings := st.issuedWarnings ++ [(u, r1)] } := by
    simp [issueWarning, h1]
  refine ⟨?_, ?_, ?_, ?_⟩
  · intro cds v now
    cases hl : cds.lookup v <;> simp [canIssueWarning, hl]
  · have hcd2 : canIssueWarning (setAssoc u t1 st.warningCooldowns) u t2 = false := by
      unfold canIssueWarning
      rw [lookup_setAssoc_self]
      simp only [decide_eq_false_iff_not, not_le]
      omega
    rw [hstep]
    simp [issueWarning, hcd2]
  · rw [hstep]
    unfold Exam.warningsOf
    rw [findCandidate_recordWarning, hc]
    rfl
  · rw [hstep]

/-- Witness for C2 at a fresh one-candidate monitor state. -/
theorem canIssueWarning_iff_and_double_call_single_increment_witness :
    ((freshMonitorState "u1").exam.findCandidate "u1" = some (freshCandidate "u1") ∧
      canIssueWarning (freshMonitorState "u1").warningCooldowns "u1" 100 = true ∧
      100 ≤ 200 ∧ 200 - 100 < WARNING_COOLDOWN) ∧
    ((∀ (cds : List (String × Nat)) (v : String) (now : Nat),
        canIssueWarning cds v now = true ↔
          ∀ last, cds.lookup v = some last → WARNING_COOLDOWN ≤ now - last) ∧
      issueWarning (issueWarning (freshMonitorState "u1") "u1" "looked away" 100)
          "u1" "looked away again" 200 =
        issueWarning (freshMonitorState "u1") "u1" "looked away" 100 ∧
      (issueWarning (freshMonitorState "u1") "u1" "looked away" 100).exam.warningsOf "u1" =
        some ((freshCandidate "u1").warnings + 1) ∧
      (issueWarning (freshMonitorState "u1") "u1" "looked away" 100).issuedWarnings =
        (freshMonitorState "u1").issuedWarnings ++ [("u1", "looked away")]) :=
  ⟨⟨by decide, by decide, by decide, by decide⟩,
   canIssueWarning_iff_and_double_call_single_increment (freshMonitorState "u1")
     "u1" "looked away" "looked away again" 100 200 (freshCandidate "u1")
     (by decide) (by decide) (by decide) (by decide)⟩

theorem joinRoom_update_comp (u s w : String) :
    ((fun v : ClientData => v.userId == w) ∘ (fun v : ClientData =>
        if v.userId == u then { v with socketid := s } else v)) =
      (fun v : ClientData => v.userId == w) := by
  funext v
  by_cases h : (v.userId == u) = true
  · simp [Function.comp, h]
  · simp [Function.comp, h]

theorem joinRoom_unique_per_identity (cs : List ClientData) (u ty s : String)
    (hinv : ∀ w, (cs.filter (fun v => v.userId == w)).length ≤ 1) :
    ∀ w, ((joinRoom cs u ty s).filter (fun v => v.userId == w)).length ≤ 1 := by
  intro w
  unfold joinRoom
  cases hany : cs.any (fun v => v.userId == u)
  · simp only [hany, Bool.false_eq_true, if_false]
    rw [List.filter_append]
    have hno : ∀ a ∈ cs, ¬((fun v : ClientData => v.userId == u) a = true) := by
      intro a ha hpa
      have : cs.any (fun v => v.userId == u) = true :=
        List.any_eq_true.mpr ⟨a, ha, hpa⟩
      rw [hany] at this
      cases this
    by_cases hw : (u == w) = true
    · have hw2 : u = w := eq_of_beq hw
      subst hw2
      have hnil : cs.filter (fun v : ClientData => v.userId == u) = [] :=
        List.filter_eq_nil_iff.mpr hno
      simp [hnil]
    · have hw2 : (u == w) = false := by simpa using hw
      simp [hw2, hinv w]
  · simp only [hany, if_true]
    rw [List.filter_map, joinRoom_update_comp u s w, List.length_map]
    exact hinv w

theorem joinRoom_socketid_eq (cs : List ClientData) (u ty s : String)
    (hinv : (cs.filter (fun v : ClientData => v.userId == u)).length ≤ 1) :
    ((joinRoom cs u ty s).filter (fun v => v.userId == u)).map
      ClientData.socketid = [s] := by
  unfold joinRoom
  cases hany : cs.any (fun v => v.userId == u)
  · simp only [hany, Bool.false_eq_true, if_false]
    rw [List.filter_append]
    have hno : ∀ a ∈ cs, ¬((fun v : ClientData => v.userId == u) a = true) := by
      intro a ha hpa
      have : cs.any (fun v => v.userId == u) = true :=
        List.any_eq_true.mpr ⟨a, ha, hpa⟩
      rw [hany] at this
      cases this
    have hnil : cs.filter (fun v : ClientData => v.userId == u) = [] :=
      List.filter_eq_nil_iff.mpr hno
    simp [hnil]
  · simp only [hany, if_true]
    rw [List.filter_map, joinRoom_update_comp u s u]
    have hpos : 0 < (cs.filter (fun v : ClientData => v.userId == u)).length := by
      rw [List.length_pos]
      intro hnil2
      obtain ⟨x, hx, hpx⟩ := List.any_eq_true.mp hany
      exact (List.filter_eq_nil_iff.mp hnil2 x hx) hpx
    have hone : (cs.filter (fun v : ClientData => v.userId == u)).length = 1 :=
      le_antisymm hinv hpos
    obtain ⟨x, hx⟩ := List.length_eq_one.mp hone
    rw [hx]
    have hmem : x ∈ cs.filter (fun v : ClientData => v.userId == u) := by
      rw [hx]
      exact List.mem_singleton_self x
    have hpx : (x.userId == u) = true := (List.mem_filter.mp hmem).2
    have hxeq : x.userId = u := eq_of_beq hpx
    simp [hxeq]

/-- C1: under any sequence of join_room calls against one exam room, the
client registry holds at most one entry per candidate identity, and one
further join by an identity leaves exactly one entry for it, carrying the
socket id of the latest join (a rejoin replaces the stored handle instead
of adding a second entry). -/
theorem joinSeq_last_write_wins (ops : List ClientData) (u ty s : String) :
    ((joinSeq ops).filter (fun v => v.userId == u)).length ≤ 1 ∧
    ((joinRoom (joinSeq ops) u ty s).filter (fun v => v.userId == u)).map
      ClientData.socketid = [s] := by
  have hfold : ∀ (ops2 : List ClientData) (l : List ClientData),
      (∀ w, (l.filter (fun v => v.userId == w)).length ≤ 1) →
      ∀ w, ((ops2.foldl (fun cs op => joinRoom cs op.userId op.userType op.socketid)
        l).filter (fun v => v.userId == w)).length ≤ 1 := by
    intro ops2
    induction ops2 with
    | nil => intro l hl; exact hl
    | cons op rest ih =>
      intro l hl
      exact ih (joinRoom l op.userId op.userType op.socketid)
        (joinRoom_unique_per_identity l op.userId op.userType op.socketid hl)
  have h1 : ∀ w, ((joinSeq ops).filter (fun v => v.userId == w)).length ≤ 1 :=
    hfold ops [] (by intro w; simp)
  exact ⟨h1 u, joinRoom_socketid_eq (joinSeq ops) u ty s (h1 u)⟩

/-- C5: handleReconnect succeeds only when a pending tracker entry exists
for the identity with a matching bound exam id; on a missing entry or a
mismatch it answers an error and mutates neither the tracker, nor the
persisted exam, nor the room; on success it deletes the tracker entry,
records the reconnection on the persisted exam, and re-adds the socket to
the session room. -/
theorem handleReconnect_spec (tracker : List (String × ReconInfo))
    (examDb : Option Exam) (room : List String)
    (userId examId socketid : String) (now : Nat) :
    ((handleReconnect tracker examDb room userId examId socketid now).events =
        [SockEvent.userReconnected userId] →
      ∃ info, tracker.lookup userId = some info ∧ info.examId = examId) ∧
    (tracker.lookup userId = none →
      handleReconnect tracker examDb room userId examId socketid now =
        ⟨tracker, examDb, room, [SockEvent.errorMsg "Invalid reconnection attempt"]⟩) ∧
    (∀ info, tracker.lookup userId = some info → info.examId ≠ examId →
      handleReconnect tracker examDb room userId examId socketid now =
        ⟨tracker, examDb, room, [SockEvent.errorMsg "Invalid reconnection attempt"]⟩) ∧
    (∀ info exam, tracker.lookup userId = some info → info.examId = examId →
      examDb = some exam →
      handleReconnect tracker examDb room userId examId socketid now =
        ⟨eraseAssoc userId tracker, some (exam.recordReconnection userId now),
         addToRoom socketid room, [SockEvent.userReconnected userId]⟩ ∧
      (eraseAssoc userId tracker).lookup userId = none ∧
      socketid ∈ addToRoom socketid room) := by
  refine ⟨?_, ?_, ?_, ?_⟩
  · intro hev
    cases hl : tracker.lookup userId with
    | none => simp [handleReconnect, hl] at hev
    | some info =>
      by_cases hid : (info.examId == examId) = true
      · exact ⟨info, rfl, eq_of_beq hid⟩
      · have hid2 : (info.examId == examId) = false := by simpa using hid
        simp [handleReconnect, hl, hid2] at hev
  · intro hl
    simp [handleReconnect, hl]
  · intro info hl hne
    have hid2 : (info.examId == examId) = false := by simpa using hne
    simp [handleReconnect, hl, hid2]
  · intro info exam hl hid hdb
    subst hdb
    have hid2 : (info.examId == examId) = true := by simpa using hid
    refine ⟨?_, lookup_eraseAssoc_self userId tracker, ?_⟩
    · simp [handleReconnect, hl, hid2]
    · unfold addToRoom
      by_cases hmem : socketid ∈ room
      · simp [hmem]
      · simp [hmem]

/-- Witness for C5: a rejection with a mismatched exam id and a success
with the matching one, at concrete states. -/
theorem handleReconnect_spec_witness :
    (([("u1", (⟨1, 50, "e1"⟩ : ReconInfo))] : List (String × ReconInfo)).lookup "u1" =
        some ⟨1, 50, "e1"⟩ ∧
      (⟨1, 50, "e1"⟩ : ReconInfo).examId ≠ "e2" ∧
      (⟨1, 50, "e1"⟩ : ReconInfo).examId = "e1") ∧
    (handleReconnect [("u1", ⟨1, 50, "e1"⟩)] (some (singleCandidateExam "u1")) []
        "u1" "e2" "s9" 77 =
      ⟨[("u1", ⟨1, 50, "e1"⟩)], some (singleCandidateExam "u1"), [],
       [SockEvent.errorMsg "Invalid reconnection attempt"]⟩) ∧
    (handleReconnect [("u1", ⟨1, 50, "e1"⟩)] (some (singleCandidateExam "u1")) []
        "u1" "e1" "s9" 77 =
      ⟨eraseAssoc "u1" [("u1", ⟨1, 50, "e1"⟩)],
       some ((singleCandidateExam "u1").recordReconnection "u1" 77),
       addToRoom "s9" [], [SockEvent.userReconnected "u1"]⟩ ∧
      (eraseAssoc "u1" ([("u1", ⟨1, 50, "e1"⟩)] : List (String × ReconInfo))).lookup "u1" =
        none ∧
      "s9" ∈ addToRoom "s9" []) :=
  ⟨⟨by decide, by decide, by decide⟩,
   (handleReconnect_spec [("u1", ⟨1, 50, "e1"⟩)] (some (singleCandidateExam "u1")) []
      "u1" "e2" "s9" 77).2.2.1 ⟨1, 50, "e1"⟩ (by decide) (by decide),
   (handleReconnect_spec [("u1", ⟨1, 50, "e1"⟩)] (some (singleCandidateExam "u1")) []
      "u1" "e1" "s9" 77).2.2.2 ⟨1, 50, "e1"⟩ (singleCandidateExam "u1")
      (by decide) (by decide) rfl⟩

/-- C4 (code bug evidence): the disconnect handler never creates a tracker
entry — a transient transport-close disconnect for an identity with no
existing entry leaves the tracker without any entry (in particular none
with attempts one), so the reset-to-one branch of the claim is unreachable
from an empty tracker. -/
theorem stepDisconnectTracker_creates_no_entry :
    stepDisconnectTracker [] "u1" "transport close" 1000 = ([], false) ∧
    (stepDisconnectTracker [] "u1" "transport close" 1000).1.lookup "u1" = none := by
  decide

/-- C6 (counterexample): with the exam admin as sender and a target that is
not in the candidate list (hence has no monitoring state), handleSendWarning
emits no notification at all — in particular no error to the sender — and
changes nothing, contradicting the claimed error rejection. -/
theorem handleSendWarning_unknown_target_counterexample :
    sockStateNoTargetState.examDb = some (singleCandidateExam "u1") ∧
    (singleCandidateExam "u1").admin = "admin1" ∧
    (singleCandidateExam "u1").candidates.any (matchesUser "x9") = false ∧
    handleSendWarning sockStateNoTargetState "admin1" "x9" 50 =
      (sockStateNoTargetState, []) := by
  decide

/-- C6 (amended): when the exam admin sends a warning targeting an identity
with no stored video state — which is the case for every identity outside
the candidate list, since video states are created only on candidate join —
the request is silently ignored: no event is emitted and neither the
ephemeral state nor the persisted exam record changes. -/
theorem handleSendWarning_unknown_target_silent
    (st : SockState) (exam : Exam) (sender target : String) (now : Nat)
    (hdb : st.examDb = some exam) (hadmin : exam.admin = sender)
    (hvs : st.videoStates.lookup target = none) :
    handleSendWarning st sender target now = (st, []) := by
  simp [handleSendWarning, hdb, hadmin, hvs]

/-- Witness for the amended C6 at the concrete no-target state. -/
theorem handleSendWarning_unknown_target_silent_witness :
    (sockStateNoTargetState.examDb = some (singleCandidateExam "u1") ∧
      (singleCandidateExam "u1").admin = "admin1" ∧
      sockStateNoTargetState.videoStates.lookup "x9" = none) ∧
    handleSendWarning sockStateNoTargetState "admin1" "x9" 50 =
      (sockStateNoTargetState, []) :=
  ⟨⟨rfl, rfl, rfl⟩,
   handleSendWarning_unknown_target_silent sockStateNoTargetState
     (singleCandidateExam "u1") "admin1" "x9" 50 rfl rfl rfl⟩

theorem statusOf_disq_preserved (e : Exam) (u v : String) (f : Candidate → Candidate)
    (hu : ∀ a, (f a).user = a.user)
    (hs : ∀ a, (f a).status = a.status ∨ (f a).status = CandidateStatus.disqualified)
    (h : e.statusOf u = some CandidateStatus.disqualified) :
    Exam.statusOf { e with candidates := updateFirst (matchesUser v) f e.candidates } u =
      some CandidateStatus.disqualified := by
  unfold Exam.statusOf Exam.findCandidate at *
  rw [Option.map_eq_some'] at h
  obtain ⟨c, hfind, hc⟩ := h
  obtain ⟨c2, h2, hst⟩ :=
    find?_disq_updateFirst u (matchesUser v) f hu hs e.candidates c hfind hc
  show ((updateFirst (matchesUser v) f e.candidates).find? (matchesUser u)).map
      Candidate.status = some CandidateStatus.disqualified
  rw [h2, Option.map_some', hst]

theorem statusOf_disq_recordWarning (e : Exam) (u v : String) (t : Nat)
    (h : e.statusOf u = some CandidateStatus.disqualified) :
    (e.recordWarning v t).statusOf u = some CandidateStatus.disqualified := by
  unfold Exam.recordWarning
  exact statusOf_disq_preserved e u v _ (fun a => rfl) (fun a => Or.inl rfl) h

theorem statusOf_disq_recordDisconnection (e : Exam) (u v : String)
    (r : Option String) (t : Nat)
    (h : e.statusOf u = some CandidateStatus.disqualified) :
    (e.recordDisconnection v r t).statusOf u = some CandidateStatus.disqualified := by
  unfold Exam.recordDisconnection
  exact statusOf_disq_preserved e u v _ (fun a => rfl) (fun a => Or.inl rfl) h

theorem statusOf_disq_recordReconnection (e : Exam) (u v : String) (t : Nat)
    (h : e.statusOf u = some CandidateStatus.disqualified) :
    (e.recordReconnection v t).statusOf u = some CandidateStatus.disqualified := by
  unfold Exam.recordReconnection
  exact statusOf_disq_preserved e u v _ (fun a => rfl) (fun a => Or.inl rfl) h

theorem statusOf_disq_setStatus (e : Exam) (u v : String)
    (h : e.statusOf u = some CandidateStatus.disqualified) :
    (e.setStatus v CandidateStatus.disqualified).statusOf u =
      some CandidateStatus.disqualified := by
  unfold Exam.setStatus
  exact statusOf_disq_preserved e u v _ (fun a => rfl) (fun a => Or.inr rfl) h

theorem statusOf_disq_handleDisconnectionVMS (e : Exam) (u v : String)
    (r : Option String) (t : Nat)
    (h : e.statusOf u = some CandidateStatus.disqualified) :
    (handleDisconnectionVMS e v r t).statusOf u =
      some CandidateStatus.disqualified := by
  have h1 := statusOf_disq_recordDisconnection e u v r t h
  cases hf : e.findCandidate v with
  | none =>
    simp only [handleDisconnectionVMS, hf]
    exact h
  | some c0 =>
    cases hf1 : (e.recordDisconnection v r t).findCandidate v with
    | none =>
      simp only [handleDisconnectionVMS, hf, hf1]
      exact h1
    | some c1 =>
      simp only [handleDisconnectionVMS, hf, hf1]
      by_cases hlen : MAX_DISCONNECTIONS ≤ (c1.videoMonitoring.disconnections.filter
          (fun d => decide (t - d.startTime ≤ RECONNECTION_TIMEOUT))).length
      · rw [if_pos hlen]
        exact statusOf_disq_preserved (e.recordDisconnection v r t) u v _
          (fun a => rfl) (fun a => Or.inr rfl) h1
      · rw [if_neg hlen]
        exact h1

theorem statusOf_setStatus_found (e : Exam) (u : String) (s : CandidateStatus)
    (c : Candidate) (h : e.findCandidate u = some c) :
    (e.setStatus u s).statusOf u = some s := by
  unfold Exam.setStatus Exam.statusOf Exam.findCandidate at *
  show ((updateFirst (matchesUser u) (fun c => { c with status := s }) e.candidates).find?
      (matchesUser u)).map Candidate.status = some s
  rw [find?_updateFirst (matchesUser u) (fun c => { c with status := s })
    (fun a ha => ha) e.candidates, h]
  rfl

theorem statusOf_disq_handleSendWarning (s2 : SockState) (e : Exam)
    (sender2 v u : String) (t2 : Nat)
    (hdb : s2.examDb = some e)
    (h : e.statusOf u = some CandidateStatus.disqualified) :
    ((handleSendWarning s2 sender2 v t2).1.examDb.map (fun ex => ex.statusOf u)) =
      some (some CandidateStatus.disqualified) := by
  by_cases hadm : (e.admin == sender2) = true
  · cases hvs : s2.videoStates.lookup v with
    | none =>
      simp only [handleSendWarning, hdb, hadm, if_true, hvs]
      simp [hdb, h]
    | some vs =>
      simp only [handleSendWarning, hdb, hadm, if_true, hvs]
      have h1 := statusOf_disq_recordWarning e u v t2 h
      split
      · split
        · simp only [Option.map_some']
          rw [statusOf_disq_setStatus (e.recordWarning v t2) u v h1]
        · simp only [Option.map_some']
          rw [h1]
      · simp only [Option.map_some']
        rw [h1]
  · have hadm2 : (e.admin == sender2) = false := by simpa using hadm
    simp [handleSendWarning, hdb, hadm2, h]

/-- C3 (counterexample): at a state where candidate u1 is already
disqualified with three warnings, a fourth admin warning is neither
rejected nor a no-op: the state changes, a warning broadcast (not an error)
goes out, and the persisted warning count rises to four. -/
theorem fourth_warning_not_rejected_counterexample :
    (sockStateAfterThreeWarnings.examDb.map (fun e => e.statusOf "u1")) =
      some (some CandidateStatus.disqualified) ∧
    (handleSendWarning sockStateAfterThreeWarnings "a1" "u1" 100).1 ≠
      sockStateAfterThreeWarnings ∧
    (handleSendWarning sockStateAfterThreeWarnings "a1" "u1" 100).2 =
      [SockEvent.warningIssued "u1", SockEvent.candidateDisqualified "u1"] ∧
    ((handleSendWarning sockStateAfterThreeWarnings "a1" "u1" 100).1.examDb.bind
      (fun e => e.warningsOf "u1")) = some 4 := by
  decide

/-- C3 (amended): with effective maxWarnings three and auto-disqualification
enabled, the sendWarning that raises the target ephemeral warning count to
three sets the candidate status to disqualified; and a disqualified status
is terminal in the sense that no later sendWarning, warning record,
disconnection or reconnection record, or video-monitoring disconnection
handling ever changes it — although a fourth warning attempt is not
rejected and still increments the warning counters. -/
theorem third_warning_disqualifies_and_status_terminal
    (st : SockState) (exam : Exam) (sender target : String) (t : Nat)
    (vs : VideoState) (c : Candidate)
    (hdb : st.examDb = some exam) (hadmin : exam.admin = sender)
    (hvs : st.videoStates.lookup target = some vs) (hwc : vs.warningCount = 2)
    (hmax : exam.settings.maxWarnings.getD 3 = 3)
    (hauto : exam.settings.autoDisqualifyOnMaxWarnings.getD true = true)
    (hcand : exam.findCandidate target = some c) :
    ((handleSendWarning st sender target t).1.examDb.map
        (fun ex => ex.statusOf target)) = some (some CandidateStatus.disqualified) ∧
    (∀ (e : Exam) (u v : String) (r : Option String) (t2 : Nat) (s2 : SockState)
        (sender2 : String),
      e.statusOf u = some CandidateStatus.disqualified →
      (e.recordWarning v t2).statusOf u = some CandidateStatus.disqualified ∧
      (e.recordDisconnection v r t2).statusOf u = some CandidateStatus.disqualified ∧
      (e.recordReconnection v t2).statusOf u = some CandidateStatus.disqualified ∧
      (handleDisconnectionVMS e v r t2).statusOf u = some CandidateStatus.disqualified ∧
      (s2.examDb = some e →
        ((handleSendWarning s2 sender2 v t2).1.examDb.map (fun ex => ex.statusOf u)) =
          some (some CandidateStatus.disqualified))) := by
  constructor
  · subst hadmin
    simp only [handleSendWarning, hdb, beq_self_eq_true, if_true, hvs]
    have hauto2 : (exam.recordWarning target t).settings.autoDisqualifyOnMaxWarnings.getD
        true = true := hauto
    have hle3 : (exam.recordWarning target t).settings.maxWarnings.getD 3 ≤
        vs.warningCount + 1 := by
      show exam.settings.maxWarnings.getD 3 ≤ vs.warningCount + 1
      rw [hmax, hwc]
    have hfind1 : (exam.recordWarning target t).findCandidate target =
        some { c with
          warnings := c.warnings + 1
          videoMonitoring := { c.videoMonitoring with
            warningCount := c.videoMonitoring.warningCount + 1
            lastWarningTime := some t } } := by
      rw [findCandidate_recordWarning, hcand]
      rfl
    rw [if_pos ⟨hauto2, hle3⟩, if_pos (by rw [hfind1]; rfl)]
    simp only [Option.map_some']
    rw [statusOf_setStatus_found (exam.recordWarning target t) target
      CandidateStatus.disqualified _ hfind1]
  · intro e u v r t2 s2 sender2 h
    exact ⟨statusOf_disq_recordWarning e u v t2 h,
      statusOf_disq_recordDisconnection e u v r t2 h,
      statusOf_disq_recordReconnection e u v t2 h,
      statusOf_disq_handleDisconnectionVMS e u v r t2 h,
      fun hdb2 => statusOf_disq_handleSendWarning s2 e sender2 v u t2 hdb2 h⟩

/-- Witness for the amended C3: the third warning against u1 disqualifies
it at the concrete two-warning state. -/
theorem third_warning_disqualifies_and_status_terminal_witness :
    (sockStateTwoWarnings.examDb = some (singleCandidateExam "u1") ∧
      (singleCandidateExam "u1").admin = "admin1" ∧
      sockStateTwoWarnings.videoStates.lookup "u1" =
        some (⟨true, none, 2⟩ : VideoState) ∧
      (⟨true, none, 2⟩ : VideoState).warningCount = 2 ∧
      (singleCandidateExam "u1").settings.maxWarnings.getD 3 = 3 ∧
      (singleCandidateExam "u1").settings.autoDisqualifyOnMaxWarnings.getD true = true ∧
      (singleCandidateExam "u1").findCandidate "u1" = some (freshCandidate "u1")) ∧
    ((handleSendWarning sockStateTwoWarnings "admin1" "u1" 9).1.examDb.map
        (fun ex => ex.statusOf "u1")) = some (some CandidateStatus.disqualified) :=
  ⟨⟨rfl, rfl, by decide, rfl, rfl, rfl, by decide⟩,
   (third_warning_disqualifies_and_status_terminal sockStateTwoWarnings
      (singleCandidateExam "u1") "admin1" "u1" 9 ⟨true, none, 2⟩
      (freshCandidate "u1") rfl rfl (by decide) rfl rfl rfl (by decide)).1⟩

/-- C8: over any non-empty stored analysis list, each reason appears exactly
when its frame fraction exceeds its threshold (multiple faces above three
tenths, no face above one half, unusual movement above four tenths), the
confidence is the clamped-at-one sum of the contributions four tenths,
three tenths and three tenths, and the report is suspicious exactly when
some reason is present. -/
theorem checkForSuspiciousActivity_characterization (results : List AnalysisResult)
    (h : results ≠ []) :
    ("Multiple faces detected" ∈ (checkForSuspiciousActivity results).reasons ↔
      (3 / 10 : ℚ) < ((results.filter (fun r => r.hasMultipleFaces)).length : ℚ) /
        (results.length : ℚ)) ∧
    ("No face detected for extended period" ∈ (checkForSuspiciousActivity results).reasons ↔
      (5 / 10 : ℚ) < ((results.filter (fun r => r.hasNoFace)).length : ℚ) /
        (results.length : ℚ)) ∧
    ("Unusual movement patterns detected" ∈ (checkForSuspiciousActivity results).reasons ↔
      (4 / 10 : ℚ) < ((results.filter (fun r => r.hasUnusualMovement)).length : ℚ) /
        (results.length : ℚ)) ∧
    (checkForSuspiciousActivity results).confidence =
      min ((if (results.length : ℚ) * (3 / 10) <
              ((results.filter (fun r => r.hasMultipleFaces)).length : ℚ)
            then (4 / 10 : ℚ) else 0) +
           (if (results.length : ℚ) * (5 / 10) <
              ((results.filter (fun r => r.hasNoFace)).length : ℚ)
            then (3 / 10 : ℚ) else 0) +
           (if (results.length : ℚ) * (4 / 10) <
              ((results.filter (fun r => r.hasUnusualMovement)).length : ℚ)
            then (3 / 10 : ℚ) else 0)) 1 ∧
    (checkForSuspiciousActivity results).confidence ≤ 1 ∧
    ((checkForSuspiciousActivity results).isSuspicious = true ↔
      (checkForSuspiciousActivity results).reasons ≠ []) := by
  have hlen0 : ¬ (results.length = 0) := by
    simpa [List.length_eq_zero] using h
  have hn : (0 : ℚ) < (results.length : ℚ) := by
    have : 0 < results.length := Nat.pos_of_ne_zero hlen0
    exact_mod_cast this
  have hdiv : ∀ q m : ℚ, (q < m / (results.length : ℚ)) ↔
      ((results.length : ℚ) * q < m) := by
    intro q m
    rw [lt_div_iff₀ hn, mul_comm]
  simp only [hdiv, checkForSuspiciousActivity, hlen0, if_neg, ite_false]
  by_cases h1 : (results.length : ℚ) * (3 / 10) <
      ((results.filter (fun r => r.hasMultipleFaces)).length : ℚ) <;>
  by_cases h2 : (results.length : ℚ) * (5 / 10) <
      ((results.filter (fun r => r.hasNoFace)).length : ℚ) <;>
  by_cases h3 : (results.length : ℚ) * (4 / 10) <
      ((results.filter (fun r => r.hasUnusualMovement)).length : ℚ) <;>
    simp [h1, h2, h3, inf_le_right]

/-- Witness for C8 at a single multiple-faces frame. -/
theorem checkForSuspiciousActivity_characterization_witness :
    (([⟨true, false, false, 1, 0⟩] : List AnalysisResult) ≠ []) ∧
    (("Multiple faces detected" ∈
        (checkForSuspiciousActivity [⟨true, false, false, 1, 0⟩]).reasons ↔
      (3 / 10 : ℚ) <
        ((([⟨true, false, false, 1, 0⟩] : List AnalysisResult).filter
          (fun r => r.hasMultipleFaces)).length : ℚ) /
        ((([⟨true, false, false, 1, 0⟩] : List AnalysisResult)).length : ℚ)) ∧
    ("No face detected for extended period" ∈
        (checkForSuspiciousActivity [⟨true, false, false, 1, 0⟩]).reasons ↔
      (5 / 10 : ℚ) <
        ((([⟨true, false, false, 1, 0⟩] : List AnalysisResult).filter
          (fun r => r.hasNoFace)).length : ℚ) /
        ((([⟨true, false, false, 1, 0⟩] : List AnalysisResult)).length : ℚ)) ∧
    ("Unusual movement patterns detected" ∈
        (checkForSuspiciousActivity [⟨true, false, false, 1, 0⟩]).reasons ↔
      (4 / 10 : ℚ) <
        ((([⟨true, false, false, 1, 0⟩] : List AnalysisResult).filter
          (fun r => r.hasUnusualMovement)).length : ℚ) /
        ((([⟨true, false, false, 1, 0⟩] : List AnalysisResult)).length : ℚ)) ∧
    (checkForSuspiciousActivity [⟨true, false, false, 1, 0⟩]).confidence =
      min ((if ((([⟨true, false, false, 1, 0⟩] : List AnalysisResult)).length : ℚ) * (3 / 10) <
              ((([⟨true, false, false, 1, 0⟩] : List AnalysisResult).filter
                (fun r => r.hasMultipleFaces)).length : ℚ)
            then (4 / 10 : ℚ) else 0) +
           (if ((([⟨true, false, false, 1, 0⟩] : List AnalysisResult)).length : ℚ) * (5 / 10) <
              ((([⟨true, false, false, 1, 0⟩] : List AnalysisResult).filter
                (fun r => r.hasNoFace)).length : ℚ)
            then (3 / 10 : ℚ) else 0) +
           (if ((([⟨true, false, false, 1, 0⟩] : List AnalysisResult)).length : ℚ) * (4 / 10) <
              ((([⟨true, false, false, 1, 0⟩] : List AnalysisResult).filter
                (fun r => r.hasUnusualMovement)).length : ℚ)
            then (3 / 10 : ℚ) else 0)) 1 ∧
    (checkForSuspiciousActivity [⟨true, false, false, 1, 0⟩]).confidence ≤ 1 ∧
    ((checkForSuspiciousActivity [⟨true, false, false, 1, 0⟩]).isSuspicious = true ↔
      (checkForSuspiciousActivity [⟨true, false, false, 1, 0⟩]).reasons ≠ [])) :=
  ⟨List.cons_ne_nil _ _,
   checkForSuspiciousActivity_characterization [⟨true, false, false, 1, 0⟩]
     (List.cons_ne_nil _ _)⟩

/-- C7: over the events recorded in the last five minutes each threshold
independently fires a warning attempt with its descriptive reason: three
tab switches trigger exactly one warning whose reason contains the words
tab switch, and a fourth tab switch inside the same window while the
cooldown is still active triggers no further warning; likewise two
copy-paste events, five right clicks, and a single dev-tools event each
fire their own warning. -/
theorem antiCheating_thresholds_warn (u : String) (d : Option String)
    (t1 t2 t3 t4 : Nat)
    (h12 : t1 ≤ t2) (h23 : t2 ≤ t3) (h34 : t3 ≤ t4)
    (hwin : t4 - t1 < FIVE_MINUTES) (hcd : t4 - t3 < WARNING_COOLDOWN) :
    (feedEvents (freshMonitorState u) u d
        [("tab_switch", t1), ("tab_switch", t2), ("tab_switch", t3)]).issuedWarnings =
      [(u, "Multiple tab switches detected")] ∧
    (feedEvents (freshMonitorState u) u d
        [("tab_switch", t1), ("tab_switch", t2),
         ("tab_switch", t3)]).exam.warningsOf u = some 1 ∧
    (feedEvents (freshMonitorState u) u d
        [("tab_switch", t1), ("tab_switch", t2), ("tab_switch", t3),
         ("tab_switch", t4)]).issuedWarnings =
      [(u, "Multiple tab switches detected")] ∧
    (feedEvents (freshMonitorState u) u d
        [("tab_switch", t1), ("tab_switch", t2), ("tab_switch", t3),
         ("tab_switch", t4)]).exam.warningsOf u = some 1 ∧
    List.IsInfix "tab switch".data "Multiple tab switches detected".data ∧
    (recordAntiCheatingEvent (freshMonitorState u) u "dev_tools" d t1).issuedWarnings =
      [(u, "Developer tools access detected")] ∧
    (feedEvents (freshMonitorState u) u d
        [("copy_paste", t1), ("copy_paste", t1)]).issuedWarnings =
      [(u, "Copy-paste activity detected")] ∧
    (feedEvents (freshMonitorState u) u d
        [("right_click", t1), ("right_click", t1), ("right_click", t1),
         ("right_click", t1), ("right_click", t1)]).issuedWarnings =
      [(u, "Excessive right-click activity")] := by
  have h21 : t2 - t1 < 300000 := by
    simp [FIVE_MINUTES] at hwin
    omega
  have h31 : t3 - t1 < 300000 := by
    simp [FIVE_MINUTES] at hwin
    omega
  have h32 : t3 - t2 < 300000 := by
    simp [FIVE_MINUTES] at hwin
    omega
  have h41 : t4 - t1 < 300000 := by
    simp [FIVE_MINUTES] at hwin
    omega
  have h42 : t4 - t2 < 300000 := by
    simp [FIVE_MINUTES] at hwin
    omega
  have h43 : t4 - t3 < 300000 := by
    simp [FIVE_MINUTES] at hwin
    omega
  have hncd : ¬ (60000 ≤ t4 - t3) := by
    simp [WARNING_COOLDOWN] at hcd
    omega
  have s1 : recordAntiCheatingEvent (freshMonitorState u) u "tab_switch" d t1 =
      (⟨⟨"admin1", [⟨u, CandidateStatus.pending, 0, freshVideoMonitoring, [⟨"tab_switch", d, t1⟩]⟩], ⟨none, none⟩⟩, [], []⟩ : MonitorState) := by
    simp [recordAntiCheatingEvent, Exam.pushAntiCheatingEvent, Exam.findCandidate,
      Exam.recordWarning, updateFirst, matchesUser, freshMonitorState,
      singleCandidateExam, freshCandidate, freshVideoMonitoring, FIVE_MINUTES,
      WARNING_COOLDOWN, issueWarning, canIssueWarning, setAssoc, List.lookup]
  have s2 : recordAntiCheatingEvent (⟨⟨"admin1", [⟨u, CandidateStatus.pending, 0, freshVideoMonitoring, [⟨"tab_switch", d, t1⟩]⟩], ⟨none, none⟩⟩, [], []⟩ : MonitorState) u "tab_switch" d t2 =
      (⟨⟨"admin1", [⟨u, CandidateStatus.pending, 0, freshVideoMonitoring, [⟨"tab_switch", d, t1⟩, ⟨"tab_switch", d, t2⟩]⟩], ⟨none, none⟩⟩, [], []⟩ : MonitorState) := by
    simp [recordAntiCheatingEvent, Exam.pushAntiCheatingEvent, Exam.findCandidate,
      Exam.recordWarning, updateFirst, matchesUser, freshMonitorState,
      singleCandidateExam, freshCandidate, freshVideoMonitoring, FIVE_MINUTES,
      WARNING_COOLDOWN, issueWarning, canIssueWarning, setAssoc, List.lookup, h21]
  have s3 : recordAntiCheatingEvent (⟨⟨"admin1", [⟨u, CandidateStatus.pending, 0, freshVideoMonitoring, [⟨"tab_switch", d, t1⟩, ⟨"tab_switch", d, t2⟩]⟩], ⟨none, none⟩⟩, [], []⟩ : MonitorState) u "tab_switch" d t3 =
      (⟨⟨"admin1", [⟨u, CandidateStatus.pending, 1, ⟨true, 1, some t3, []⟩, [⟨"tab_switch", d, t1⟩, ⟨"tab_switch", d, t2⟩, ⟨"tab_switch", d, t3⟩]⟩], ⟨none, none⟩⟩, [(u, t3)], [(u, "Multiple tab switches detected")]⟩ : MonitorState) := by
    simp [recordAntiCheatingEvent, Exam.pushAntiCheatingEvent, Exam.findCandidate,
      Exam.recordWarning, updateFirst, matchesUser, freshMonitorState,
      singleCandidateExam, freshCandidate, freshVideoMonitoring, FIVE_MINUTES,
      WARNING_COOLDOWN, issueWarning, canIssueWarning, setAssoc, List.lookup, h31, h32]
  have s4 : recordAntiCheatingEvent (⟨⟨"admin1", [⟨u, CandidateStatus.pending, 1, ⟨true, 1, some t3, []⟩, [⟨"tab_switch", d, t1⟩, ⟨"tab_switch", d, t2⟩, ⟨"tab_switch", d, t3⟩]⟩], ⟨none, none⟩⟩, [(u, t3)], [(u, "Multiple tab switches detected")]⟩ : MonitorState) u "tab_switch" d t4 =
      (⟨⟨"admin1", [⟨u, CandidateStatus.pending, 1, ⟨true, 1, some t3, []⟩, [⟨"tab_switch", d, t1⟩, ⟨"tab_switch", d, t2⟩, ⟨"tab_switch", d, t3⟩, ⟨"tab_switch", d, t4⟩]⟩], ⟨none, none⟩⟩, [(u, t3)], [(u, "Multiple tab switches detected")]⟩ : MonitorState) := by
    simp [recordAntiCheatingEvent, Exam.pushAntiCheatingEvent, Exam.findCandidate,
      Exam.recordWarning, updateFirst, matchesUser, freshMonitorState,
      singleCandidateExam, freshCandidate, freshVideoMonitoring, FIVE_MINUTES,
      WARNING_COOLDOWN, issueWarning, canIssueWarning, setAssoc, List.lookup, h41, h42, h43, hncd]
  have v1 : recordAntiCheatingEvent (freshMonitorState u) u "dev_tools" d t1 =
      (⟨⟨"admin1", [⟨u, CandidateStatus.pending, 1, ⟨true, 1, some t1, []⟩, [⟨"dev_tools", d, t1⟩]⟩], ⟨none, none⟩⟩, [(u, t1)], [(u, "Developer tools access detected")]⟩ : MonitorState) := by
    simp [recordAntiCheatingEvent, Exam.pushAntiCheatingEvent, Exam.findCandidate,
      Exam.recordWarning, updateFirst, matchesUser, freshMonitorState,
      singleCandidateExam, freshCandidate, freshVideoMonitoring, FIVE_MINUTES,
      WARNING_COOLDOWN, issueWarning, canIssueWarning, setAssoc, List.lookup]
  have c1 : recordAntiCheatingEvent (freshMonitorState u) u "copy_paste" d t1 =
      (⟨⟨"admin1", [⟨u, CandidateStatus.pending, 0, freshVideoMonitoring, [⟨"copy_paste", d, t1⟩]⟩], ⟨none, none⟩⟩, [], []⟩ : MonitorState) := by
    simp [recordAntiCheatingEvent, Exam.pushAntiCheatingEvent, Exam.findCandidate,
      Exam.recordWarning, updateFirst, matchesUser, freshMonitorState,
      singleCandidateExam, freshCandidate, freshVideoMonitoring, FIVE_MINUTES,
      WARNING_COOLDOWN, issueWarning, canIssueWarning, setAssoc, List.lookup]
  have c2 : recordAntiCheatingEvent (⟨⟨"admin1", [⟨u, CandidateStatus.pending, 0, freshVideoMonitoring, [⟨"copy_paste", d, t1⟩]⟩], ⟨none, none⟩⟩, [], []⟩ : MonitorState) u "copy_paste" d t1 =
      (⟨⟨"admin1", [⟨u, CandidateStatus.pending, 1, ⟨true, 1, some t1, []⟩, [⟨"copy_paste", d, t1⟩, ⟨"copy_paste", d, t1⟩]⟩], ⟨none, none⟩⟩, [(u, t1)], [(u, "Copy-paste activity detected")]⟩ : MonitorState) := by
    simp [recordAntiCheatingEvent, Exam.pushAntiCheatingEvent, Exam.findCandidate,
      Exam.recordWarning, updateFirst, matchesUser, freshMonitorState,
      singleCandidateExam, freshCandidate, freshVideoMonitoring, FIVE_MINUTES,
      WARNING_COOLDOWN, issueWarning, canIssueWarning, setAssoc, List.lookup]
  have r1 : recordAntiCheatingEvent (freshMonitorState u) u "right_click" d t1 =
      (⟨⟨"admin1", [⟨u, CandidateStatus.pending, 0, freshVideoMonitoring, [⟨"right_click", d, t1⟩]⟩], ⟨none, none⟩⟩, [], []⟩ : MonitorState) := by
    simp [recordAntiCheatingEvent, Exam.pushAntiCheatingEvent, Exam.findCandidate,
      Exam.recordWarning, updateFirst, matchesUser, freshMonitorState,
      singleCandidateExam, freshCandidate, freshVideoMonitoring, FIVE_MINUTES,
      WARNING_COOLDOWN, issueWarning, canIssueWarning, setAssoc, List.lookup]
  have r2 : recordAntiCheatingEvent (⟨⟨"admin1", [⟨u, CandidateStatus.pending, 0, freshVideoMonitoring, [⟨"right_click", d, t1⟩]⟩], ⟨none, none⟩⟩, [], []⟩ : MonitorState) u "right_click" d t1 =
      (⟨⟨"admin1", [⟨u, CandidateStatus.pending, 0, freshVideoMonitoring, [⟨"right_click", d, t1⟩, ⟨"right_click", d, t1⟩]⟩], ⟨none, none⟩⟩, [], []⟩ : MonitorState) := by
    simp [recordAntiCheatingEvent, Exam.pushAntiCheatingEvent, Exam.findCandidate,
      Exam.recordWarning, updateFirst, matchesUser, freshMonitorState,
      singleCandidateExam, freshCandidate, freshVideoMonitoring, FIVE_MINUTES,
      WARNING_COOLDOWN, issueWarning, canIssueWarning, setAssoc, List.lookup]
  have r3 : recordAntiCheatingEvent (⟨⟨"admin1", [⟨u, CandidateStatus.pending, 0, freshVideoMonitoring, [⟨"right_click", d, t1⟩, ⟨"right_click", d, t1⟩]⟩], ⟨none, none⟩⟩, [], []⟩ : MonitorState) u "right_click" d t1 =
      (⟨⟨"admin1", [⟨u, CandidateStatus.pending, 0, freshVideoMonitoring, [⟨"right_click", d, t1⟩, ⟨"right_click", d, t1⟩, ⟨"right_click", d, t1⟩]⟩], ⟨none, none⟩⟩, [], []⟩ : MonitorState) := by
    simp [recordAntiCheatingEvent, Exam.pushAntiCheatingEvent, Exam.findCandidate,
      Exam.recordWarning, updateFirst, matchesUser, freshMonitorState,
      singleCandidateExam, freshCandidate, freshVideoMonitoring, FIVE_MINUTES,
      WARNING_COOLDOWN, issueWarning, canIssueWarning, setAssoc, List.lookup]
  have r4 : recordAntiCheatingEvent (⟨⟨"admin1", [⟨u, CandidateStatus.pending, 0, freshVideoMonitoring, [⟨"right_click", d, t1⟩, ⟨"right_click", d, t1⟩, ⟨"right_click", d, t1⟩]⟩], ⟨none, none⟩⟩, [], []⟩ : MonitorState) u "right_click" d t1 =
      (⟨⟨"admin1", [⟨u, CandidateStatus.pending, 0, freshVideoMonitoring, [⟨"right_click", d, t1⟩, ⟨"right_click", d, t1⟩, ⟨"right_click", d, t1⟩, ⟨"right_click", d, t1⟩]⟩], ⟨none, none⟩⟩, [], []⟩ : MonitorState) := by
    simp [recordAntiCheatingEvent, Exam.pushAntiCheatingEvent, Exam.findCandidate,
      Exam.recordWarning, updateFirst, matchesUser, freshMonitorState,
      singleCandidateExam, freshCandidate, freshVideoMonitoring, FIVE_MINUTES,
      WARNING_COOLDOWN, issueWarning, canIssueWarning, setAssoc, List.lookup]
  have r5 : recordAntiCheatingEvent (⟨⟨"admin1", [⟨u, CandidateStatus.pending, 0, freshVideoMonitoring, [⟨"right_click", d, t1⟩, ⟨"right_click", d, t1⟩, ⟨"right_click", d, t1⟩, ⟨"right_click", d, t1⟩]⟩], ⟨none, none⟩⟩, [], []⟩ : MonitorState) u "right_click" d t1 =
      (⟨⟨"admin1", [⟨u, CandidateStatus.pending, 1, ⟨true, 1, some t1, []⟩, [⟨"right_click", d, t1⟩, ⟨"right_click", d, t1⟩, ⟨"right_click", d, t1⟩, ⟨"right_click", d, t1⟩, ⟨"right_click", d, t1⟩]⟩], ⟨none, none⟩⟩, [(u, t1)], [(u, "Excessive right-click activity")]⟩ : MonitorState) := by
    simp [recordAntiCheatingEvent, Exam.pushAntiCheatingEvent, Exam.findCandidate,
      Exam.recordWarning, updateFirst, matchesUser, freshMonitorState,
      singleCandidateExam, freshCandidate, freshVideoMonitoring, FIVE_MINUTES,
      WARNING_COOLDOWN, issueWarning, canIssueWarning, setAssoc, List.lookup]
  refine ⟨?_, ?_, ?_, ?_, ?_, ?_, ?_, ?_⟩
  · simp only [feedEvents, List.foldl]
    rw [s1, s2, s3]
  · simp only [feedEvents, List.foldl]
    rw [s1, s2, s3]
    simp [Exam.warningsOf, Exam.findCandidate, matchesUser]
  · simp only [feedEvents, List.foldl]
    rw [s1, s2, s3, s4]
  · simp only [feedEvents, List.foldl]
    rw [s1, s2, s3, s4]
    simp [Exam.warningsOf, Exam.findCandidate, matchesUser]
  · decide
  · rw [v1]
  · simp only [feedEvents, List.foldl]
    rw [c1, c2]
  · simp only [feedEvents, List.foldl]
    rw [r1, r2, r3, r4, r5]

/-- Witness for C7 with candidate u1 and event times zero to three. -/
theorem antiCheating_thresholds_warn_witness :
    ((0 : Nat) ≤ 1 ∧ (1 : Nat) ≤ 2 ∧ (2 : Nat) ≤ 3 ∧ 3 - 0 < FIVE_MINUTES ∧
      3 - 2 < WARNING_COOLDOWN) ∧
    ((feedEvents (freshMonitorState "u1") "u1" none
        [("tab_switch", 0), ("tab_switch", 1), ("tab_switch", 2)]).issuedWarnings =
      [("u1", "Multiple tab switches detected")] ∧
    (feedEvents (freshMonitorState "u1") "u1" none
        [("tab_switch", 0), ("tab_switch", 1),
         ("tab_switch", 2)]).exam.warningsOf "u1" = some 1 ∧
    (feedEvents (freshMonitorState "u1") "u1" none
        [("tab_switch", 0), ("tab_switch", 1), ("tab_switch", 2),
         ("tab_switch", 3)]).issuedWarnings =
      [("u1", "Multiple tab switches detected")] ∧
    (feedEvents (freshMonitorState "u1") "u1" none
        [("tab_switch", 0), ("tab_switch", 1), ("tab_switch", 2),
         ("tab_switch", 3)]).exam.warningsOf "u1" = some 1 ∧
    List.IsInfix "tab switch".data "Multiple tab switches detected".data ∧
    (recordAntiCheatingEvent (freshMonitorState "u1") "u1" "dev_tools" none
        0).issuedWarnings = [("u1", "Developer tools access detected")] ∧
    (feedEvents (freshMonitorState "u1") "u1" none
        [("copy_paste", 0), ("copy_paste", 0)]).issuedWarnings =
      [("u1", "Copy-paste activity detected")] ∧
    (feedEvents (freshMonitorState "u1") "u1" none
        [("right_click", 0), ("right_click", 0), ("right_click", 0),
         ("right_click", 0), ("right_click", 0)]).issuedWarnings =
      [("u1", "Excessive right-click activity")]) :=
  ⟨⟨by decide, by decide, by decide, by decide, by decide⟩,
   antiCheating_thresholds_warn "u1" none 0 1 2 3 (by decide) (by decide)
     (by decide) (by decide) (by decide)⟩
